import Mathlib

/-!
Shallow embedding of the Guardian-Chatbot retrieval-and-routing pipeline.

The Python sources under verification:
  app.py                 (chat_page: routing and the fallback chain; setup_backend)
  utils/web_search.py    (perform_web_search)
  utils/llm_generation.py (generate_answer_from_context)
  utils/rag_utils.py     (retrieve_relevant_info, create_vector_store)
  config/api_keys.py     (key lookup, modelled as a plain string; empty = missing)

External effects (the Serper HTTP call, the FAISS index, the Gemini model) are
modelled as oracle values passed in explicitly, so every function here is a
pure, executable translation of the corresponding Python function body.
-/

namespace Guardian

/-- Python str.lower on the ASCII range (Char.toLower lowercases exactly
the characters A-Z, which is what every keyword and every concrete query
in this development uses). -/
def pyLower (s : String) : String := ⟨s.data.map Char.toLower⟩

/-- Python default whitespace for str.strip: space, tab, newline, carriage
return, vertical tab, form feed. -/
def pySpace (c : Char) : Bool :=
  c = ' ' || c = '\t' || c = '\n' || c = '\r' || c = Char.ofNat 11 || c = Char.ofNat 12

/-- Python str.strip(): drop leading and trailing whitespace. -/
def pyStrip (s : String) : String :=
  ⟨((s.data.dropWhile pySpace).reverse.dropWhile pySpace).reverse⟩

/-- Whether the first list is a prefix of the second (Boolean, executable). -/
def begins : List Char → List Char → Bool
  | [], _ => true
  | _ :: _, [] => false
  | a :: as, b :: bs => a == b && begins as bs

/-- Python substring containment needle in hay, at the character-list level:
scan every start offset. -/
def pyContainsL (hay needle : List Char) : Bool :=
  (List.range (hay.length + 1)).any fun i => begins needle (hay.drop i)

/-- Python `needle in hay` on strings. -/
def pyContains (hay needle : String) : Bool := pyContainsL hay.data needle.data

/-- Python sep.join(parts). -/
def pyJoin (sep : String) : List String → String
  | [] => ""
  | [x] => x
  | x :: y :: xs => x ++ sep ++ pyJoin sep (y :: xs)

/-- Python list slicing l[:n] for an int n (negative n counts from the end). -/
def pySliceTake {α : Type} (n : Int) (l : List α) : List α :=
  if 0 ≤ n then l.take n.toNat else l.take ((l.length : Int) + n).toNat

/-! ## Router keyword sets (app.py lines 280 and 285) -/

/-- The search-intent keywords of app.py line 280. -/
def searchKeywords : List String := ["search", "find", "who is", "what is", "tell me about"]

/-- The domain keywords of app.py line 285. -/
def domainKeywords : List String :=
  ["fraud", "security", "transaction", "phishing", "identity theft", "account takeover", "bnpl"]

/-- app.py line 280: `is_search_query = any(keyword in prompt.lower() for keyword in [...])`. -/
def is_search_query (prompt : String) : Bool :=
  searchKeywords.any fun kw => pyContains (pyLower prompt) kw

/-- app.py line 285: `any(kw in prompt.lower() for kw in [...])` over the domain keywords. -/
def has_domain_keyword (prompt : String) : Bool :=
  domainKeywords.any fun kw => pyContains (pyLower prompt) kw

/-- The Router decision of the spec: WebFirst is the then-branch of the
`if is_search_query and not any(...)` test at app.py line 285. -/
inductive Route
  | WebFirst
  | LocalFirst
deriving DecidableEq

/-- The routing condition of app.py line 285, as a decision. -/
def route (prompt : String) : Route :=
  if is_search_query prompt && !has_domain_keyword prompt then .WebFirst else .LocalFirst

/-! ## Web Search Client (utils/web_search.py) -/

/-- One organic entry of the Serper response; each field may be missing
(result.get with a default in the source). -/
structure SearchResult where
  title : Option String
  snippet : Option String
  link : Option String
deriving DecidableEq

/-- The parsed JSON body of a successful Serper response; the organic key
may be absent (none) or hold a list. -/
structure SearchResponse where
  organic : Option (List SearchResult)
deriving DecidableEq

/-- web_search.py line 47: the per-result block built inside the loop. -/
def format_result (i : Nat) (r : SearchResult) : String :=
  "Result " ++ toString (i + 1) ++ ":\nTitle: " ++ r.title.getD "No Title" ++
    "\nSnippet: " ++ r.snippet.getD "No Snippet" ++ "\nLink: " ++ r.link.getD "No Link" ++ "\n"

/-- utils/web_search.py perform_web_search. The API key (empty string when
unset, as config.api_keys returns) and the outcome of the HTTP POST (error =
requests.exceptions.RequestException message, ok = parsed JSON) are oracle
arguments; everything else is the literal control flow of the source. -/
def perform_web_search (serper_api_key : String) (http : Except String SearchResponse)
    (query : String) (num_results : Int := 3) : String :=
  if serper_api_key = "" then
    "Search functionality is not configured."
  else
    match http with
    | .error e => "An error occurred during web search: " ++ e
    | .ok search_results =>
      match search_results.organic with
      | some organic =>
        if organic = [] then "No relevant information found on the web."
        else
          pyJoin "\n" ((pySliceTake num_results organic).enum.map fun p => format_result p.1 p.2)
      | none => "No relevant information found on the web."

/-! ## Answer Synthesizer (utils/llm_generation.py) -/

/-- The generative model handle: generate_content may return text or raise
(modelled as Except). -/
structure GenModel where
  generate_content : String → Except String String

/-- llm_generation.py line 36: the fixed message for a missing model or empty context. -/
def not_enough_info_msg : String :=
  "I'm sorry, I don't have enough information to answer that question."

/-- llm_generation.py lines 38-41: the mode-dependent instruction. -/
def prompt_instruction (response_mode : String) : String :=
  if pyLower response_mode = "detailed" then
    "Provide a detailed, in-depth, and comprehensive answer based *only* on the provided context. Synthesize information from the context to answer the question thoroughly. Do not use any outside information."
  else
    "Provide a short, concise, and summarized answer based *only* on the provided context. Extract the key information to answer the question briefly. Do not use any outside information."

/-- llm_generation.py lines 43-52: the grounding prompt (the f-string, with
its literal indentation). -/
def build_prompt (query context response_mode : String) : String :=
  "\n    You are a helpful assistant. " ++ prompt_instruction response_mode ++
    "\n    If the provided context does not contain enough information to fully answer the question, state that you do not have enough information *specifically from the provided context*. Do not make up information.\n\n    Context:\n    " ++
    context ++ "\n\n    Question: " ++ query ++ "\n    Answer:\n    "

/-- llm_generation.py generate_answer_from_context. Returns the answer text
paired with the number of calls made to the generative endpoint
(model.generate_content) during this invocation. -/
def generate_answer_from_context (model : Option GenModel) (query context : String)
    (response_mode : String := "Concise") : String × Nat :=
  match model with
  | none => (not_enough_info_msg, 0)
  | some m =>
    if context = "" then (not_enough_info_msg, 0)
    else
      match m.generate_content (build_prompt query context response_mode) with
      | .ok text => (text, 1)
      | .error e => ("I encountered an error while trying to generate a response: " ++ e, 1)

/-! ## Retriever (utils/rag_utils.py) -/

/-- A LangChain document as retrieval sees it: only page_content is read. -/
structure FaissDoc where
  page_content : String
deriving DecidableEq

/-- The FAISS vector store, modelled by its one operation used here:
similarity_search_with_score(query, k) returning (document, score) pairs in
ascending-distance order (the FAISS contract); the Int score is never
inspected by the code under verification. -/
def FaissIndex : Type := String → Nat → List (FaissDoc × Int)

/-- The embeddings model handle (passed around but never used by retrieval). -/
def EmbeddingsModel : Type := List String → List (List Int)

/-- rag_utils.py retrieve_relevant_info: empty string when the index is
absent, otherwise the page contents of similarity_search_with_score joined
with a double newline. The document_chunks and embeddings_model parameters
are accepted, as in the source, and never read. -/
def retrieve_relevant_info (query : String) (faiss_index : Option FaissIndex)
    (document_chunks : List FaissDoc) (embeddings_model : EmbeddingsModel)
    (num_chunks : Nat := 3) : String :=
  match faiss_index with
  | none => ""
  | some idx => pyJoin "\n\n" ((idx query num_chunks).map fun p => p.1.page_content)

/-! ## Chat turn (app.py chat_page, lines 274-311) -/

/-- The session state a single chat turn reads. -/
structure ChatEnv where
  llm_model : Option GenModel
  serper_key : String
  http : Except String SearchResponse
  faiss_index : Option FaissIndex
  document_chunks : List FaissDoc
  embeddings_model : EmbeddingsModel
  uploaded_faiss_index : Option FaissIndex
  uploaded_document_chunks : Option (List FaissDoc)

/-- app.py line 277: the uploaded index shadows the default one when present. -/
def current_faiss_index (env : ChatEnv) : Option FaissIndex :=
  match env.uploaded_faiss_index with
  | some u => some u
  | none => env.faiss_index

/-- app.py line 278 (Python truthiness: an empty uploaded chunk list also
falls back to the default chunks). -/
def current_document_chunks (env : ChatEnv) : List FaissDoc :=
  match env.uploaded_document_chunks with
  | some l => if l = [] then env.document_chunks else l
  | none => env.document_chunks

/-- The observable outcome of one assistant turn: the final answer, how many
times perform_web_search ran, the (query, context) argument pairs passed to
the Answer Synthesizer generate_answer_from_context, and how many calls
reached the generative endpoint. -/
structure TurnResult where
  final_answer : String
  web_search_calls : Nat
  synthesizer_calls : List (String × String)
  gen_endpoint_calls : Nat
deriving DecidableEq

/-- app.py line 291: the WebFirst terminal message. -/
def no_web_results_msg : String :=
  "Sorry, I couldn't find any relevant web search results for your query."

/-- app.py line 307: the LocalFirst terminal message. -/
def no_answer_anywhere_msg : String :=
  "Sorry, I couldn't find an answer in either the provided context or a web search."

/-- app.py line 295: the locally retrieved context for a prompt (the
retrieved_context variable). -/
def local_context (env : ChatEnv) (prompt : String) : String :=
  retrieve_relevant_info prompt (current_faiss_index env) (current_document_chunks env)
    env.embeddings_model

/-- app.py lines 287 and 303: the web_results variable (the num_results
argument is left at its default 3 at both call sites). -/
def web_results (env : ChatEnv) (prompt : String) : String :=
  perform_web_search env.serper_key env.http prompt

/-- app.py lines 280-307: one assistant turn. The branch structure is the
literal source: web-first when the line-285 condition holds, otherwise local
retrieval with the 50-character threshold and web fallback; the truthiness
tests on strings are emptiness tests. -/
def chat_turn (env : ChatEnv) (prompt response_mode : String) : TurnResult :=
  if route prompt = .WebFirst then
    if web_results env prompt = "" then
      ⟨no_web_results_msg, 1, [], 0⟩
    else
      ⟨(generate_answer_from_context env.llm_model prompt (web_results env prompt) response_mode).1,
        1, [(prompt, web_results env prompt)],
        (generate_answer_from_context env.llm_model prompt (web_results env prompt) response_mode).2⟩
  else
    if local_context env prompt ≠ "" ∧ 50 < (pyStrip (local_context env prompt)).length then
      ⟨(generate_answer_from_context env.llm_model prompt (local_context env prompt) response_mode).1,
        0, [(prompt, local_context env prompt)],
        (generate_answer_from_context env.llm_model prompt (local_context env prompt) response_mode).2⟩
    else if web_results env prompt = "" then
      ⟨no_answer_anywhere_msg, 1, [], 0⟩
    else
      ⟨(generate_answer_from_context env.llm_model prompt (web_results env prompt) response_mode).1,
        1, [(prompt, web_results env prompt)],
        (generate_answer_from_context env.llm_model prompt (web_results env prompt) response_mode).2⟩

/-! ## Startup (app.py setup_backend, lines 64-89) and serving a turn -/

/-- Why setup_backend stopped the script (st.error followed by st.stop). -/
inductive StopReason
  | LLMInitFailed
  | KnowledgeBaseMissing
deriving DecidableEq

/-- The process environment setup_backend reads: the initialize_llm outcome,
whether the default knowledge-base file exists, the chunks load_and_chunk_document
produces from it, the FAISS.from_documents constructor (error = exception),
the embedder, the Serper key, and the HTTP oracle for later turns. -/
structure AppEnv where
  initialize_llm : Option GenModel
  kb_file_exists : Bool
  kb_chunks : List FaissDoc
  from_documents : List FaissDoc → Except String FaissIndex
  embeddings_model : EmbeddingsModel
  serper_key : String
  http : Except String SearchResponse

/-- rag_utils.py create_vector_store: (None, None) for an empty chunk list or
a FAISS exception, otherwise the store paired with the embeddings model. -/
def create_vector_store (document_chunks : List FaissDoc) (embeddings_model : EmbeddingsModel)
    (from_documents : List FaissDoc → Except String FaissIndex) :
    Option FaissIndex × Option EmbeddingsModel :=
  if document_chunks = [] then (none, none)
  else
    match from_documents document_chunks with
    | .ok store => (some store, some embeddings_model)
    | .error _ => (none, none)

/-- The tuple setup_backend returns into session state. -/
structure Backend where
  embeddings_model : EmbeddingsModel
  llm_model : GenModel
  faiss_index : Option FaissIndex
  document_chunks : List FaissDoc
  serper_key : String

/-- app.py setup_backend, lines 64-85: LLM initialization failure stops the
script (lines 73-75); a missing knowledge-base file stops the script
(lines 78-80); otherwise the default corpus is chunked and indexed. -/
def setup_backend (env : AppEnv) : Except StopReason Backend :=
  match env.initialize_llm with
  | none => .error .LLMInitFailed
  | some llm_model =>
    if env.kb_file_exists then
      let document_chunks := env.kb_chunks
      let store := create_vector_store document_chunks env.embeddings_model env.from_documents
      .ok ⟨env.embeddings_model, llm_model, store.1, document_chunks, env.serper_key⟩
    else
      .error .KnowledgeBaseMissing

/-- One user turn as the whole app serves it: chat_page is reachable only
after the session-state initialization at app.py lines 54-89 has run, and
st.stop inside setup_backend halts the script, so a failed setup serves no
turn at all (none). No document is uploaded in this path. -/
def serve_query (env : AppEnv) (prompt response_mode : String) : Option TurnResult :=
  match setup_backend env with
  | .error _ => none
  | .ok b =>
    some (chat_turn ⟨some b.llm_model, b.serper_key, env.http, b.faiss_index,
      b.document_chunks, b.embeddings_model, none, none⟩ prompt response_mode)

/-! ## Chunker (spec section 4.1)

Modelled from the spec: the repository delegates chunking to the external
LangChain RecursiveCharacterTextSplitter (rag_utils.py lines 38-44) with
fixed chunk_size 1000 and chunk_overlap 200, so the Chunker contract of spec
section 4.1 - character windows of length chunk_size advancing by
chunk_size - overlap, with overlap < chunk_size required - has no
implementation inside src/. The definitions below follow the words of
spec section 4.1. -/

/-- The configuration failure of spec section 4.1. -/
inductive ChunkError
  | InvalidConfiguration
deriving DecidableEq

/-- Modelled from the spec: the character windows of spec section 4.1, each
of length chunk_size, the start offset advancing by step = chunk_size -
overlap; the final window may be shorter. Total because step is positive in
every call the guarded entry point makes. -/
def chunkWindows (chunk_size step : Nat) (text : List Char) : List (List Char) :=
  if htext : text = [] then []
  else if text.length ≤ chunk_size then [text]
  else if hstep : 0 < step then
    text.take chunk_size :: chunkWindows chunk_size step (text.drop step)
  else []
termination_by text.length
decreasing_by
  simp only [List.length_drop]
  have := List.length_pos.mpr htext
  omega

/-- Modelled from the spec: chunk(text, chunk_size, overlap) of spec section
4.1. Fails with InvalidConfiguration when overlap is at least chunk_size
(the would-be non-advancing loop), otherwise returns the ordered windows. -/
def Chunker.chunk (text : String) (chunk_size overlap : Nat) :
    Except ChunkError (List String) :=
  if chunk_size ≤ overlap then .error .InvalidConfiguration
  else .ok ((chunkWindows chunk_size (chunk_size - overlap) text.data).map fun l => ⟨l⟩)

/-! ## Helper lemmas about the string utilities -/

theorem begins_iff (n h : List Char) : begins n h = true ↔ ∃ t, h = n ++ t := by
  induction n generalizing h with
  | nil => simp [begins]
  | cons a as ih =>
    cases h with
    | nil => simp [begins]
    | cons b bs =>
      simp only [begins, Bool.and_eq_true, beq_iff_eq, ih, List.cons_append, List.cons.injEq]
      constructor
      · rintro ⟨rfl, t, rfl⟩; exact ⟨t, rfl, rfl⟩
      · rintro ⟨t, rfl, rfl⟩; exact ⟨rfl, t, rfl⟩

theorem pyContainsL_iff (h n : List Char) :
    pyContainsL h n = true ↔ ∃ i, i ≤ h.length ∧ ∃ t, h.drop i = n ++ t := by
  simp [pyContainsL, List.any_eq_true, List.mem_range, begins_iff, Nat.lt_succ_iff]

theorem pyContainsL_append_right (h a b : List Char)
    (hc : pyContainsL h (a ++ b) = true) : pyContainsL h b = true := by
  rw [pyContainsL_iff] at hc ⊢
  obtain ⟨i, hi, t, ht⟩ := hc
  refine ⟨i + a.length, ?_, t, ?_⟩
  · have hlen := congrArg List.length ht
    simp only [List.length_drop, List.length_append] at hlen
    omega
  · rw [← List.drop_drop, ht, List.append_assoc, List.drop_left]

theorem ne_empty_of_length_pos {s : String} (h : 0 < s.length) : s ≠ "" := by
  intro he
  subst he
  simp at h

/-! ## C3: the Router keyword characterization -/

theorem route_eq_webFirst_iff (p : String) :
    route p = .WebFirst ↔ (is_search_query p = true ∧ has_domain_keyword p = false) := by
  unfold route
  rcases h1 : is_search_query p <;> rcases h2 : has_domain_keyword p <;> simp

/-- C3: the Router selects WebFirst exactly when the lowercased query
contains a search-intent keyword and none of the domain keywords; any query
whose lowercased text contains the phrase "what is phishing" routes
LocalFirst (it then contains the domain keyword "phishing"), and the query
"who is the president" routes WebFirst. -/
theorem c3_router_characterization :
    (∀ prompt : String, route prompt = .WebFirst ↔
      ((∃ kw ∈ searchKeywords, pyContains (pyLower prompt) kw = true) ∧
        ∀ kw ∈ domainKeywords, pyContains (pyLower prompt) kw = false))
    ∧ (∀ prompt : String, pyContains (pyLower prompt) "what is phishing" = true →
        route prompt = .LocalFirst)
    ∧ route "who is the president" = .WebFirst := by
  refine ⟨fun prompt => ?_, fun prompt h => ?_, by decide⟩
  · rw [route_eq_webFirst_iff]
    unfold is_search_query has_domain_keyword
    rw [List.any_eq_true, List.any_eq_false]
    simp [Bool.not_eq_true]
  · have hph : pyContains (pyLower prompt) "phishing" = true := by
      have hsplit : ("what is phishing").data = ("what is ").data ++ ("phishing").data := by
        decide
      unfold pyContains at h ⊢
      rw [hsplit] at h
      exact pyContainsL_append_right _ _ _ h
    have hdom : has_domain_keyword prompt = true := by
      unfold has_domain_keyword
      rw [List.any_eq_true]
      exact ⟨"phishing", by decide, hph⟩
    unfold route
    rw [hdom]
    simp

/-- C3 witness: a concrete mixed-case query containing the phrase routes LocalFirst. -/
theorem c3_witness :
    pyContains (pyLower "Explain: What is Phishing") "what is phishing" = true ∧
      route "Explain: What is Phishing" = .LocalFirst :=
  ⟨by decide, c3_router_characterization.2.1 "Explain: What is Phishing" (by decide)⟩

/-! ## C4: the Synthesizer guard -/

/-- C4: whenever the model handle is absent or the context string is empty,
generate_answer_from_context returns the fixed not-enough-information
message paired with zero calls to the generative endpoint. -/
theorem c4_synthesizer_guard (model : Option GenModel) (query context response_mode : String)
    (h : model = none ∨ context = "") :
    generate_answer_from_context model query context response_mode = (not_enough_info_msg, 0) := by
  rcases h with h | h
  · subst h
    rfl
  · subst h
    cases model <;> rfl

/-- C4 witness: a concrete absent model with a non-empty context. -/
theorem c4_witness :
    ((none : Option GenModel) = none ∨ "plenty of context" = "") ∧
      generate_answer_from_context none "a question" "plenty of context" "Concise" =
        (not_enough_info_msg, 0) :=
  ⟨Or.inl rfl, c4_synthesizer_guard none "a question" "plenty of context" "Concise" (Or.inl rfl)⟩

/-! ## C5: the Web Search Client boundary -/

/-- C5: perform_web_search is total (the embedding returns a string on every
oracle outcome, matching the try/except boundary of the source); a missing
API key yields the configuration sentinel, a request exception yields the
descriptive error string, and a successful response whose organic key is
absent or holds an empty list yields the no-results sentinel. -/
theorem c5_web_search_sentinels :
    (∀ (http : Except String SearchResponse) (query : String) (n : Int),
      perform_web_search "" http query n = "Search functionality is not configured.")
    ∧ (∀ (key e query : String) (n : Int), key ≠ "" →
      perform_web_search key (.error e) query n = "An error occurred during web search: " ++ e)
    ∧ (∀ (key query : String) (r : SearchResponse) (n : Int), key ≠ "" →
      (r.organic = none ∨ r.organic = some []) →
      perform_web_search key (.ok r) query n = "No relevant information found on the web.") := by
  refine ⟨fun http query n => rfl, fun key e query n hk => ?_, fun key query r n hk hr => ?_⟩
  · simp [perform_web_search, hk]
  · rcases hr with hr | hr <;> simp [perform_web_search, hk, hr]

/-- C5 witness: one concrete input per sentinel branch. -/
theorem c5_witness :
    perform_web_search "" (.ok ⟨some []⟩) "q" 3 = "Search functionality is not configured."
    ∧ ("key" ≠ "" ∧ perform_web_search "key" (.error "timeout") "q" 3 =
        "An error occurred during web search: " ++ "timeout")
    ∧ ("key" ≠ "" ∧ perform_web_search "key" (.ok ⟨none⟩) "q" 3 =
        "No relevant information found on the web.") :=
  ⟨c5_web_search_sentinels.1 (.ok ⟨some []⟩) "q" 3,
    ⟨by decide, c5_web_search_sentinels.2.1 "key" "timeout" "q" 3 (by decide)⟩,
    ⟨by decide, c5_web_search_sentinels.2.2 "key" "q" ⟨none⟩ 3 (by decide) (Or.inl rfl)⟩⟩

/-! ## C10: retrieval ignores the chunk list and the embedder -/

/-- C10: the result of retrieve_relevant_info depends only on the query, the
index and num_chunks; the document_chunks and embeddings_model arguments do
not influence it. -/
theorem c10_retrieval_noninterference (query : String) (faiss_index : Option FaissIndex)
    (num_chunks : Nat) (chunks₁ chunks₂ : List FaissDoc) (emb₁ emb₂ : EmbeddingsModel) :
    retrieve_relevant_info query faiss_index chunks₁ emb₁ num_chunks =
      retrieve_relevant_info query faiss_index chunks₂ emb₂ num_chunks := rfl

/-! ## C7: the Chunker configuration guard (modelled from the spec) -/

/-- C7: for every text, chunk size and overlap with overlap at least
chunk_size, the chunking operation fails with InvalidConfiguration (and, the
embedding being a total function, it terminates rather than looping). -/
theorem c7_chunker_invalid_configuration (text : String) (chunk_size overlap : Nat)
    (h : chunk_size ≤ overlap) :
    Chunker.chunk text chunk_size overlap = .error .InvalidConfiguration := by
  simp [Chunker.chunk, h]

/-- C7 witness: overlap equal to chunk_size is rejected. -/
theorem c7_witness :
    (5 : Nat) ≤ 5 ∧ Chunker.chunk "some document text" 5 5 = .error .InvalidConfiguration :=
  ⟨by decide, c7_chunker_invalid_configuration "some document text" 5 5 (by decide)⟩

/-! ## C1: WebFirst with zero organic results -/

/-- A generative model that answers every prompt. -/
def modelC1 : GenModel := ⟨fun _ => .ok "ANSWER"⟩

/-- A turn environment whose web search succeeds with zero organic results
(organic key present, list empty), with a configured key and a live model. -/
def envZeroOrganic : ChatEnv :=
  ⟨some modelC1, "key", .ok ⟨some []⟩, none, [], fun _ => [], none, none⟩

/-- C1: at the failing input (WebFirst query "who is the president", search
endpoint returning zero organic results) the code does NOT terminate with
the fixed no-web-results message: perform_web_search returns the non-empty
sentinel, the line-288 truthiness test succeeds, and the Answer Synthesizer
is invoked once with the sentinel as its context, reaching the generative
endpoint. -/
theorem c1_zero_organic_still_synthesizes :
    chat_turn envZeroOrganic "who is the president" "Concise" =
      ⟨"ANSWER", 1, [("who is the president", "No relevant information found on the web.")], 1⟩
    ∧ "ANSWER" ≠ no_web_results_msg :=
  ⟨rfl, by decide⟩

/-! ## C6: retrieval output shape -/

/-- An index whose similarity search returns one stored document. -/
def idxC6 : FaissIndex := fun _ _ => [(⟨"a stored document returned by the index"⟩, 0)]

/-- A trivial embedder. -/
def embC6 : EmbeddingsModel := fun _ => []

/-- C6 counterexample: with an empty document_chunks list but a present
index, retrieve_relevant_info returns the non-empty joined text, refuting
the clause that an empty chunk list yields the empty string (the chunk-list
argument is never read). -/
theorem c6_counterexample :
    retrieve_relevant_info "any query" (some idxC6) [] embC6 3 =
      "a stored document returned by the index"
    ∧ "a stored document returned by the index" ≠ "" :=
  ⟨rfl, by decide⟩

/-- C6 amended: retrieve_relevant_info returns the empty string exactly when
the index is absent, and otherwise joins the page contents of the documents
the index returns for (query, num_chunks) - in the order the index returns
them, which by the FAISS similarity_search_with_score contract is ascending
distance - with a double-newline separator; the document_chunks argument has
no effect. -/
theorem c6_retrieval_shape (query : String) (faiss_index : Option FaissIndex)
    (document_chunks : List FaissDoc) (embeddings_model : EmbeddingsModel) (num_chunks : Nat) :
    (faiss_index = none →
      retrieve_relevant_info query faiss_index document_chunks embeddings_model num_chunks = "")
    ∧ (∀ idx, faiss_index = some idx →
      retrieve_relevant_info query faiss_index document_chunks embeddings_model num_chunks =
        pyJoin "\n\n" ((idx query num_chunks).map fun p => p.1.page_content)) := by
  constructor
  · intro h
    subst h
    rfl
  · intro idx h
    subst h
    rfl

/-- C6 witness: both branches of the amended statement at concrete inputs. -/
theorem c6_witness :
    retrieve_relevant_info "q" none [] embC6 3 = ""
    ∧ retrieve_relevant_info "q" (some idxC6) [] embC6 3 =
        pyJoin "\n\n" ((idxC6 "q" 3).map fun p => p.1.page_content) :=
  ⟨(c6_retrieval_shape "q" none [] embC6 3).1 rfl,
    (c6_retrieval_shape "q" (some idxC6) [] embC6 3).2 idxC6 rfl⟩

/-! ## C8: missing knowledge-base file -/

/-- An environment with a live model, a configured key, a web search that
would succeed, but no knowledge-base file on disk. -/
def envNoKB : AppEnv :=
  ⟨some ⟨fun _ => .ok "WEB ANSWER"⟩, false, [], fun _ => .error "never reached",
    fun _ => [], "key", .ok ⟨some [⟨some "T", some "S", some "L"⟩]⟩⟩

/-- C8 counterexample: with the knowledge-base file absent, even a WebFirst
query whose web search would succeed is never served - st.stop inside
setup_backend halts the script before chat_page runs - refuting the clause
that web-search-only operation remains possible. -/
theorem c8_counterexample :
    route "who is the president" = .WebFirst
    ∧ serve_query envNoKB "who is the president" "Concise" = none :=
  ⟨by decide, rfl⟩

/-- C8 amended: absence of the default knowledge-base file is a fatal
configuration error - setup_backend stops with KnowledgeBaseMissing whenever
the LLM initialized - and it prevents the process from serving ANY turn,
web-search-only turns included. -/
theorem c8_missing_kb_fatal (env : AppEnv) (prompt response_mode : String)
    (hllm : env.initialize_llm ≠ none) (hkb : env.kb_file_exists = false) :
    setup_backend env = .error .KnowledgeBaseMissing
    ∧ serve_query env prompt response_mode = none := by
  have hs : setup_backend env = .error .KnowledgeBaseMissing := by
    rcases h : env.initialize_llm with _ | m
    · exact absurd h hllm
    · simp [setup_backend, h, hkb]
  exact ⟨hs, by simp [serve_query, hs]⟩

/-- C8 witness: the amended statement at the concrete environment. -/
theorem c8_witness :
    (envNoKB.initialize_llm ≠ none ∧ envNoKB.kb_file_exists = false)
    ∧ (setup_backend envNoKB = .error .KnowledgeBaseMissing
      ∧ serve_query envNoKB "hello" "Concise" = none) :=
  ⟨⟨by simp [envNoKB], rfl⟩,
    c8_missing_kb_fatal envNoKB "hello" "Concise" (by simp [envNoKB]) rfl⟩

/-! ## C2: the LocalFirst threshold and fallback -/

/-- C2: on the LocalFirst path, the turn synthesizes from the locally
retrieved context - and performs no web search - exactly when that context
is non-empty and its stripped length exceeds 50 characters; otherwise the
turn invokes the web search fallback for the same prompt. -/
theorem c2_local_threshold (env : ChatEnv) (prompt response_mode : String)
    (h : route prompt = .LocalFirst) :
    ((chat_turn env prompt response_mode).synthesizer_calls =
        [(prompt, local_context env prompt)]
      ∧ (chat_turn env prompt response_mode).web_search_calls = 0
      ↔ local_context env prompt ≠ ""
        ∧ 50 < (pyStrip (local_context env prompt)).length)
    ∧ ((local_context env prompt = "" ∨ (pyStrip (local_context env prompt)).length ≤ 50) →
      (chat_turn env prompt response_mode).web_search_calls = 1) := by
  have hne : ¬(route prompt = .WebFirst) := by
    rw [h]
    exact fun hcontra => Route.noConfusion hcontra
  unfold chat_turn
  rw [if_neg hne]
  by_cases hc : local_context env prompt ≠ "" ∧ 50 < (pyStrip (local_context env prompt)).length
  · rw [if_pos hc]
    refine ⟨by simpa using hc, fun hfalse => ?_⟩
    rcases hc with ⟨hne, hlt⟩
    rcases hfalse with he | hle
    · exact absurd he hne
    · omega
  · rw [if_neg hc]
    constructor
    · by_cases hw : web_results env prompt = ""
      · rw [if_pos hw]
        exact iff_of_false (by simp) hc
      · rw [if_neg hw]
        exact iff_of_false (by simp) hc
    · intro _
      by_cases hw : web_results env prompt = ""
      · rw [if_pos hw]
      · rw [if_neg hw]

/-- An index returning one long stored document, for the C2 witness. -/
def idxC2 : FaissIndex := fun _ _ =>
  [(⟨"A long local context about account takeover prevention and transaction monitoring policies."⟩,
    0)]

/-- A turn environment for the C2 witness: local retrieval succeeds with a
long context. -/
def envC2 : ChatEnv :=
  ⟨some ⟨fun _ => .ok "LOCAL ANSWER"⟩, "key", .ok ⟨some []⟩, some idxC2, [], fun _ => [],
    none, none⟩

/-- C2 witness: the concrete LocalFirst query "hello" with a long retrieved
context. -/
theorem c2_witness :
    route "hello" = .LocalFirst
    ∧ (((chat_turn envC2 "hello" "Concise").synthesizer_calls =
          [("hello", local_context envC2 "hello")]
        ∧ (chat_turn envC2 "hello" "Concise").web_search_calls = 0
        ↔ local_context envC2 "hello" ≠ ""
          ∧ 50 < (pyStrip (local_context envC2 "hello")).length)
      ∧ ((local_context envC2 "hello" = ""
          ∨ (pyStrip (local_context envC2 "hello")).length ≤ 50) →
        (chat_turn envC2 "hello" "Concise").web_search_calls = 1)) :=
  ⟨by decide, c2_local_threshold envC2 "hello" "Concise" (by decide)⟩

/-! ## C9: non-emptiness of perform_web_search -/

theorem format_result_length_pos (i : Nat) (r : SearchResult) :
    0 < (format_result i r).length := by
  have h7 : ("Result " : String).length = 7 := rfl
  simp only [format_result, String.length_append]
  omega

theorem pyJoin_length_ge (sep x : String) (xs : List String) :
    x.length ≤ (pyJoin sep (x :: xs)).length := by
  cases xs with
  | nil => simp [pyJoin]
  | cons y ys =>
    simp only [pyJoin, String.length_append]
    omega

theorem pyJoin_cons_length_pos (sep x : String) (xs : List String) (hx : 0 < x.length) :
    0 < (pyJoin sep (x :: xs)).length :=
  lt_of_lt_of_le hx (pyJoin_length_ge sep x xs)

/-- A successful response with exactly one organic result. -/
def respOneResult : SearchResponse := ⟨some [⟨some "T", some "S", some "L"⟩]⟩

/-- C9 counterexample: with num_results = 0 a successful search over a
non-empty organic list formats an empty slice and returns the empty string,
so the claim quantified over every num_results fails (at the call sites in
app.py the argument is always the default 3, where the result is non-empty). -/
theorem c9_counterexample :
    perform_web_search "key" (.ok respOneResult) "q" 0 = "" := rfl

/-- C9 amended: for every query and every num_results of at least 1,
perform_web_search returns a non-empty string (a sentinel, an error
description, or at least one formatted result block), so the emptiness
tests at app.py lines 288 and 304 - which call it with the default
num_results = 3 - never take their false branch. -/
theorem c9_web_search_nonempty (serper_api_key : String) (http : Except String SearchResponse)
    (query : String) (num_results : Int) (h : 1 ≤ num_results) :
    perform_web_search serper_api_key http query num_results ≠ "" := by
  by_cases hk : serper_api_key = ""
  · simp [perform_web_search, hk]
  · cases http with
    | error e =>
      have he : perform_web_search serper_api_key (.error e) query num_results =
          "An error occurred during web search: " ++ e := by
        simp [perform_web_search, hk]
      rw [he]
      apply ne_empty_of_length_pos
      have h37 : ("An error occurred during web search: " : String).length = 37 := rfl
      simp only [String.length_append]
      omega
    | ok r =>
      rcases r with ⟨org⟩
      cases org with
      | none => simp [perform_web_search, hk]
      | some organic =>
        by_cases ho : organic = []
        · simp [perform_web_search, hk, ho]
        · have hs : perform_web_search serper_api_key (.ok ⟨some organic⟩) query num_results =
              pyJoin "\n"
                ((pySliceTake num_results organic).enum.map fun p => format_result p.1 p.2) := by
            simp [perform_web_search, hk, ho]
          rw [hs]
          apply ne_empty_of_length_pos
          obtain ⟨a, as, rfl⟩ := List.exists_cons_of_ne_nil ho
          have h0 : (0 : Int) ≤ num_results := by omega
          have h1 : 1 ≤ num_results.toNat := by
            have := Int.toNat_le_toNat h
            simpa using this
          obtain ⟨k, hk2⟩ : ∃ k, num_results.toNat = k + 1 :=
            ⟨num_results.toNat - 1, by omega⟩
          rw [pySliceTake, if_pos h0, hk2, List.take_succ_cons, List.enum_cons]
          simp only [List.map_cons]
          exact pyJoin_cons_length_pos _ _ _ (format_result_length_pos 0 a)

/-- C9 witness: at the default num_results = 3 the result is non-empty even
with no API key configured. -/
theorem c9_witness :
    (1 : Int) ≤ 3 ∧ perform_web_search "" (.ok respOneResult) "q" 3 ≠ "" :=
  ⟨by decide, c9_web_search_nonempty "" (.ok respOneResult) "q" 3 (by decide)⟩

end Guardian
